import Mathlib

/-!
Verification of the proximity-analysis pipeline in src/proximity_analysis.py.

The script loads a facility point table and a water-feature collection,
projects both to the metric CRS EPSG:32610, computes for each facility the
minimum distance to any water feature (a brute-force scan using the external
shapely/geopandas distance routine), classifies that distance into one of
three risk bands, and emits a CSV report plus a map.

Embedding conventions:
- Python floats are modelled as exact rationals; the one NaN that the code
  can produce (pandas Series.min over an empty series) is modelled by
  Option ℚ with none standing for NaN.
- The external shapely point-to-geometry distance is an interface boundary;
  the engine is embedded parametrically over a distance function
  dist : Facility → β → ℚ, where β is the type of water features.
- File IO is modelled by Option inputs (none = file missing) and the
  geopandas to_crs failure on a CRS-less layer by Except.
-/

/-- Facility record: identity attributes (name, county, arbitrary extra
fields) and the geographic position columns LATITUDE / LONGITUDE. -/
structure Facility where
  name : String
  county : String
  lat : ℚ
  lon : ℚ
  extra : List (String × String)
deriving DecidableEq, Repr

/-- Source line 12: target projected CRS for the Bay Area. -/
def TARGET_CRS : String := "EPSG:32610"

/-- Source line 73. -/
def HIGH_RISK_THRESHOLD : ℚ := 100

/-- Source line 74. -/
def MEDIUM_RISK_THRESHOLD : ℚ := 500

/-- Source lines 76-83: categorize_risk on an ordinary (non-NaN) float,
modelled as a rational. -/
def categorize_risk (distance : ℚ) : String :=
  if distance ≤ HIGH_RISK_THRESHOLD then "High Risk (<100m)"
  else if distance ≤ MEDIUM_RISK_THRESHOLD then "Medium Risk (101-500m)"
  else "Low Risk (>500m)"

/-- Pandas Series.min over the per-feature distance series (source line 64):
returns NaN — modelled as none — when the series is empty, and the minimum
of the entries otherwise. -/
def series_min : List ℚ → Option ℚ
  | [] => none
  | d :: ds => some (ds.foldl min d)

/-- IEEE comparison of a possibly-NaN float with a constant: any comparison
with NaN is false. Used to run categorize_risk exactly as Python does when
the distance column holds NaN. -/
def float_le (x : Option ℚ) (c : ℚ) : Bool :=
  match x with
  | none => false
  | some d => decide (d ≤ c)

/-- Source lines 76-83 as executed by the pandas apply on the float column,
including the NaN case: NaN fails both comparisons and falls to the final
else branch. On some d this agrees with categorize_risk d. -/
def categorize_risk_float (distance : Option ℚ) : String :=
  if float_le distance HIGH_RISK_THRESHOLD then "High Risk (<100m)"
  else if float_le distance MEDIUM_RISK_THRESHOLD then "Medium Risk (101-500m)"
  else "Low Risk (>500m)"

/-- A facility row after the engine has appended the two derived columns
(source lines 68 and 86). base carries every original attribute unchanged. -/
structure ProcessedFacility where
  base : Facility
  Distance_to_Water_m : Option ℚ
  Risk_Category : String
deriving DecidableEq, Repr

/-- Source lines 53-88: for each facility, in input order, the minimum
distance over all water features (pandas min of the distance series, NaN on
an empty collection), then the risk column computed from that distance. -/
def calculate_distance_and_categorize_risk {β : Type}
    (dist : Facility → β → ℚ)
    (gdf_facilities_proj : List Facility) (gdf_water_proj : List β) :
    List ProcessedFacility :=
  gdf_facilities_proj.map (fun facility =>
    let min_dist := series_min (gdf_water_proj.map (fun w => dist facility w))
    { base := facility
      Distance_to_Water_m := min_dist
      Risk_Category := categorize_risk_float min_dist })

/-- One row of the output CSV, source lines 99-106: the six selected columns
in their stated order. LATITUDE / LONGITUDE are the original table columns
(the geometry reprojection on line 97 does not touch these columns), and
Distance_to_Water_m is written by to_csv at full precision, unrounded. -/
structure ReportRow where
  FACILITY_NAME : String
  COUNTY : String
  LATITUDE : ℚ
  LONGITUDE : ℚ
  Distance_to_Water_m : Option ℚ
  Risk_Category : String
deriving DecidableEq, Repr

/-- The column header of the CSV report, source lines 99-106, in order. -/
def reportColumns : List String :=
  ["FACILITY_NAME", "COUNTY", "LATITUDE", "LONGITUDE",
   "Distance_to_Water_m", "Risk_Category"]

/-- Source lines 90-108 (CSV part of generate_reports): select the six
report columns from the classified rows, one output row per classified row,
in order. -/
def generate_reports (gdf_classified : List ProcessedFacility) :
    List ReportRow :=
  gdf_classified.map (fun r =>
    { FACILITY_NAME := r.base.name
      COUNTY := r.base.county
      LATITUDE := r.base.lat
      LONGITUDE := r.base.lon
      Distance_to_Water_m := r.Distance_to_Water_m
      Risk_Category := r.Risk_Category })

/-- Follows the words of the spec (and of claim C6) only, for comparison
with the source rendering: a value prints as 2-decimal meters exactly when
it is an integer multiple of 1/100. -/
def renders_as_two_decimals (q : ℚ) : Prop := (q * 100).den = 1

instance (q : ℚ) : Decidable (renders_as_two_decimals q) := by
  unfold renders_as_two_decimals; infer_instance

/-- Error taxonomy of the spec, section 7, for the load phase. -/
inductive GeoError where
  | MissingInputFile
  | InvalidCRS
deriving DecidableEq, Repr

/-- A geometry layer: an optional CRS tag plus its features. crs = none
models a layer loaded from a file with a missing or unparseable CRS. -/
structure GeoCollection (β : Type) where
  crs : Option String
  features : List β
deriving DecidableEq, Repr

/-- Models the external geopandas GeoDataFrame.to_crs (source lines 47-48):
on a layer with no usable CRS it raises (here Except.error InvalidCRS);
otherwise it retags the layer with the target CRS. The pointwise pyproj
coordinate transform is an external pure function of position and is not
needed by any claim, so features are carried through unchanged. -/
def to_crs {β : Type} (target : String) (c : GeoCollection β) :
    Except GeoError (GeoCollection β) :=
  match c.crs with
  | none => Except.error GeoError.InvalidCRS
  | some _ => Except.ok { crs := some target, features := c.features }

/-- Source lines 14-51: load both inputs (none = file absent, an error
before any computation), build the facility layer with CRS EPSG:4326
(source line 27), then transform both layers to TARGET_CRS. The water layer
may have been read without a usable CRS, in which case the to_crs call on
source line 48 fails. -/
def load_and_transform_data {β : Type}
    (facility_file : Option (List Facility))
    (water_file : Option (GeoCollection β)) :
    Except GeoError (GeoCollection Facility × GeoCollection β) :=
  match facility_file with
  | none => Except.error GeoError.MissingInputFile
  | some facs =>
    match water_file with
    | none => Except.error GeoError.MissingInputFile
    | some w => do
      let fp ← to_crs TARGET_CRS { crs := some "EPSG:4326", features := facs }
      let wp ← to_crs TARGET_CRS w
      Except.ok (fp, wp)

/-- Modelled from the spec (sections 4.2-4.3; the repository has only the
brute-force scan, the indexed engine is not in src/): branch-and-bound scan
over index candidates delivered in increasing lower-bound order. exactDist is
the exact point-to-geometry distance, lbDist the bounding-box lower bound. The
scan keeps a running minimum and stops as soon as the next lower bound
exceeds it. -/
def bnb_scan {β : Type} (exactDist lbDist : β → ℚ) : ℚ → List β → ℚ
  | best, [] => best
  | best, c :: cs =>
    if best < lbDist c then best
    else bnb_scan exactDist lbDist (min best (exactDist c)) cs

/-- Modelled from the spec (section 4.3): the indexed Proximity Engine.
Given the candidate features in increasing lower-bound order, seed the
running minimum with the first exact distance and branch-and-bound over the
rest; an empty collection yields no answer. -/
def indexed_minimum_distance {β : Type} (exactDist lbDist : β → ℚ)
    (cands : List β) : Option ℚ :=
  match cands with
  | [] => none
  | c :: cs => some (bnb_scan exactDist lbDist (exactDist c) cs)

/-- A concrete facility used for closed evaluation theorems. -/
def fac0 : Facility :=
  { name := "Plant A", county := "Alameda", lat := 37.7, lon := -122.4,
    extra := [] }

/-- A concrete distance function on a unit water feature, used for closed
evaluation theorems. -/
def dist0 : Facility → Unit → ℚ := fun _ _ => 45.125

-- ----------------------------------------------------------------------
-- Theorems
-- ----------------------------------------------------------------------

theorem categorize_risk_float_some (d : ℚ) :
    categorize_risk_float (some d) = categorize_risk d := by
  simp [categorize_risk_float, categorize_risk, float_le]

/-- Every output of categorize_risk_float is one of the three band labels. -/
theorem categorize_risk_float_total (x : Option ℚ) :
    categorize_risk_float x = "High Risk (<100m)" ∨
    categorize_risk_float x = "Medium Risk (101-500m)" ∨
    categorize_risk_float x = "Low Risk (>500m)" := by
  unfold categorize_risk_float
  split_ifs <;> simp

/-- Claim C2: for every non-negative distance, the classifier returns
exactly one of the three bands, and the bands partition the non-negative
reals with boundaries inclusive to the lower band: High iff d ≤ 100,
Medium iff 100 < d ≤ 500, Low iff d > 500. -/
theorem risk_bands_partition (d : ℚ) (h : 0 ≤ d) :
    (categorize_risk d = "High Risk (<100m)" ∨
     categorize_risk d = "Medium Risk (101-500m)" ∨
     categorize_risk d = "Low Risk (>500m)") ∧
    (categorize_risk d = "High Risk (<100m)" ↔ d ≤ 100) ∧
    (categorize_risk d = "Medium Risk (101-500m)" ↔ 100 < d ∧ d ≤ 500) ∧
    (categorize_risk d = "Low Risk (>500m)" ↔ 500 < d) := by
  unfold categorize_risk HIGH_RISK_THRESHOLD MEDIUM_RISK_THRESHOLD
  by_cases h1 : d ≤ 100
  · rw [if_pos h1]
    refine ⟨Or.inl rfl, by simp [h1], ?_, ?_⟩
    · constructor
      · intro hx; exact absurd hx (by simp)
      · intro hx; linarith [hx.1]
    · constructor
      · intro hx; exact absurd hx (by simp)
      · intro hx; linarith
  · by_cases h2 : d ≤ 500
    · rw [if_neg h1, if_pos h2]
      refine ⟨Or.inr (Or.inl rfl), ?_, by simp [h2, lt_of_not_le h1], ?_⟩
      · constructor
        · intro hx; exact absurd hx (by simp)
        · intro hx; exact absurd h1 (by simp [hx])
      · constructor
        · intro hx; exact absurd hx (by simp)
        · intro hx; linarith
    · rw [if_neg h1, if_neg h2]
      refine ⟨Or.inr (Or.inr rfl), ?_, ?_, by simp [lt_of_not_le h2]⟩
      · constructor
        · intro hx; exact absurd hx (by simp)
        · intro hx; exact absurd h1 (by simp [hx])
      · constructor
        · intro hx; exact absurd hx (by simp)
        · intro hx; exact absurd h2 (by simp [hx.2])

/-- Witness for risk_bands_partition at d = 45. -/
theorem risk_bands_partition_witness :
    (0 : ℚ) ≤ 45 ∧
    ((categorize_risk 45 = "High Risk (<100m)" ∨
      categorize_risk 45 = "Medium Risk (101-500m)" ∨
      categorize_risk 45 = "Low Risk (>500m)") ∧
     (categorize_risk 45 = "High Risk (<100m)" ↔ (45 : ℚ) ≤ 100) ∧
     (categorize_risk 45 = "Medium Risk (101-500m)" ↔
        (100 : ℚ) < 45 ∧ (45 : ℚ) ≤ 500) ∧
     (categorize_risk 45 = "Low Risk (>500m)" ↔ (500 : ℚ) < 45)) :=
  ⟨by norm_num, risk_bands_partition 45 (by norm_num)⟩

/-- Claim C4 counterexample: at the negative input -5 the classifier does
not fail at all; it silently returns the High band. -/
theorem categorize_risk_negative_counterexample :
    categorize_risk (-5) = "High Risk (<100m)" := by
  norm_num [categorize_risk, HIGH_RISK_THRESHOLD]

/-- Claim C4 (amended): every negative input falls into the first branch of
categorize_risk and is classified into the High band; the classifier has no
failure path for negative values. -/
theorem categorize_risk_negative (d : ℚ) (h : d < 0) :
    categorize_risk d = "High Risk (<100m)" := by
  unfold categorize_risk HIGH_RISK_THRESHOLD
  rw [if_pos (by linarith)]

/-- Witness for categorize_risk_negative at d = -1. -/
theorem categorize_risk_negative_witness :
    (-1 : ℚ) < 0 ∧ categorize_risk (-1) = "High Risk (<100m)" :=
  ⟨by norm_num, categorize_risk_negative (-1) (by norm_num)⟩

/-- Claim C3 (what the code actually does at the failing input): with an
empty water collection the engine does not fail with NoWaterFeatures and no
facility is marked unclassifiable; pandas Series.min returns NaN, NaN fails
both threshold comparisons, and every facility is classified into the Low
band. -/
theorem empty_water_classified_low {β : Type} (dist : Facility → β → ℚ)
    (facs : List Facility) :
    calculate_distance_and_categorize_risk dist facs ([] : List β) =
      facs.map (fun f =>
        { base := f, Distance_to_Water_m := none,
          Risk_Category := "Low Risk (>500m)" }) := by
  simp [calculate_distance_and_categorize_risk, series_min,
    categorize_risk_float, float_le]

/-- Claim C5: the output has exactly one record per input facility, in the
same order as the input, whatever the distance function and water data. -/
theorem output_matches_input_order {β : Type} (dist : Facility → β → ℚ)
    (facs : List Facility) (water : List β) :
    (calculate_distance_and_categorize_risk dist facs water).length
        = facs.length ∧
    (calculate_distance_and_categorize_risk dist facs water).map
        (fun r => r.base) = facs := by
  constructor
  · simp [calculate_distance_and_categorize_risk]
  · unfold calculate_distance_and_categorize_risk
    rw [List.map_map]
    exact List.map_id facs

/-- Claim C8: the engine only appends the two derived fields; at every
index the output record carries exactly the input facility record, with all
original attributes (name, county, latitude, longitude, extra fields)
unchanged. -/
theorem engine_frame_preserves_facilities {β : Type}
    (dist : Facility → β → ℚ) (facs : List Facility) (water : List β)
    (i : ℕ) :
    ((calculate_distance_and_categorize_risk dist facs water)[i]?).map
        ProcessedFacility.base = facs[i]? := by
  unfold calculate_distance_and_categorize_risk
  rw [List.getElem?_map]
  cases facs[i]? <;> rfl

/-- Claim C10: determinism — the core computation and the report are pure
functions of the inputs, so two runs on equal inputs produce equal distance
values, risk labels, and report rows. -/
theorem pipeline_deterministic {β : Type}
    (dist1 dist2 : Facility → β → ℚ) (facs1 facs2 : List Facility)
    (water1 water2 : List β)
    (hd : dist1 = dist2) (hf : facs1 = facs2) (hw : water1 = water2) :
    calculate_distance_and_categorize_risk dist1 facs1 water1 =
      calculate_distance_and_categorize_risk dist2 facs2 water2 ∧
    generate_reports
        (calculate_distance_and_categorize_risk dist1 facs1 water1) =
      generate_reports
        (calculate_distance_and_categorize_risk dist2 facs2 water2) := by
  subst hd; subst hf; subst hw; exact ⟨rfl, rfl⟩

/-- Witness for pipeline_deterministic on a concrete one-facility run. -/
theorem pipeline_deterministic_witness :
    calculate_distance_and_categorize_risk dist0 [fac0] [()] =
      calculate_distance_and_categorize_risk dist0 [fac0] [()] ∧
    generate_reports
        (calculate_distance_and_categorize_risk dist0 [fac0] [()]) =
      generate_reports
        (calculate_distance_and_categorize_risk dist0 [fac0] [()]) :=
  pipeline_deterministic dist0 dist0 [fac0] [fac0] [()] [()] rfl rfl rfl

/-- Claim C6 counterexample: a run whose computed distance is 45.125 m
writes the raw value 45.125 into the CSV distance cell; that value is not a
2-decimal rendering, so the CSV distance column is not 2-decimal meters. -/
theorem csv_distance_full_precision_counterexample :
    (generate_reports (calculate_distance_and_categorize_risk dist0 [fac0]
        [()])).map ReportRow.Distance_to_Water_m = [some (45.125 : ℚ)] ∧
    ¬ renders_as_two_decimals (45.125 : ℚ) := by
  constructor
  · rfl
  · intro hden
    unfold renders_as_two_decimals at hden
    have h1 : (45.125 : ℚ) * 100 = ((9025 : ℤ) : ℚ) / ((2 : ℤ) : ℚ) := by
      norm_num
    rw [h1] at hden
    have h2 := (Rat.den_div_intCast_eq_one_iff 9025 2 (by norm_num)).mp hden
    omega

/-- Claim C6 (amended): the CSV has exactly the six columns FACILITY_NAME,
COUNTY, LATITUDE, LONGITUDE, Distance_to_Water_m, Risk_Category in that
order, one row per input facility in input order; each row carries the
original name, county, latitude and longitude, the raw computed distance
(written at full precision, not rounded to 2 decimals), and a Risk_Category
equal to one of the three literal band labels. -/
theorem report_columns_and_rows {β : Type} (dist : Facility → β → ℚ)
    (facs : List Facility) (water : List β) :
    reportColumns = ["FACILITY_NAME", "COUNTY", "LATITUDE", "LONGITUDE",
      "Distance_to_Water_m", "Risk_Category"] ∧
    generate_reports (calculate_distance_and_categorize_risk dist facs water)
      = facs.map (fun f =>
        { FACILITY_NAME := f.name
          COUNTY := f.county
          LATITUDE := f.lat
          LONGITUDE := f.lon
          Distance_to_Water_m :=
            series_min (water.map (fun w => dist f w))
          Risk_Category :=
            categorize_risk_float
              (series_min (water.map (fun w => dist f w))) }) ∧
    ∀ r ∈ generate_reports
        (calculate_distance_and_categorize_risk dist facs water),
      r.Risk_Category = "High Risk (<100m)" ∨
      r.Risk_Category = "Medium Risk (101-500m)" ∨
      r.Risk_Category = "Low Risk (>500m)" := by
  refine ⟨rfl, ?_, ?_⟩
  · unfold generate_reports calculate_distance_and_categorize_risk
    rw [List.map_map]
    rfl
  · intro r hr
    unfold generate_reports calculate_distance_and_categorize_risk at hr
    rw [List.map_map] at hr
    obtain ⟨f, _, rfl⟩ := List.mem_map.mp hr
    exact categorize_risk_float_total _

/-- Claim C9: when the water layer has a missing or unparseable CRS tag,
load_and_transform_data fails with InvalidCRS (the to_crs call on the
CRS-less layer raises); no output in an undefined coordinate system is
produced. -/
theorem missing_crs_rejected {β : Type} (facs : List Facility)
    (w : GeoCollection β) (h : w.crs = none) :
    load_and_transform_data (some facs) (some w) =
      Except.error GeoError.InvalidCRS := by
  obtain ⟨crs, feats⟩ := w
  cases h
  rfl

/-- Witness for missing_crs_rejected on a concrete CRS-less water layer. -/
theorem missing_crs_rejected_witness :
    (GeoCollection.mk none ([] : List Unit)).crs = none ∧
    load_and_transform_data (some ([] : List Facility))
        (some (GeoCollection.mk none ([] : List Unit))) =
      Except.error GeoError.InvalidCRS :=
  ⟨rfl, missing_crs_rejected [] (GeoCollection.mk none ([] : List Unit)) rfl⟩

/-- Folding min over a list of values that are all ≥ the seed bound keeps
the result ≥ 0 when the seed and all entries are non-negative. -/
theorem foldl_min_nonneg (l : List ℚ) (a : ℚ) (ha : 0 ≤ a)
    (hl : ∀ x ∈ l, 0 ≤ x) : 0 ≤ l.foldl min a := by
  induction l generalizing a with
  | nil => exact ha
  | cons x xs ih =>
    exact ih (min a x) (le_min ha (hl x (by simp)))
      (fun y hy => hl y (by simp [hy]))

/-- Claim C7: with a non-empty water collection and the external distance
contract (every point-to-geometry distance is ≥ 0, the shapely interface
guarantee), every distance the engine stores is a real value and is ≥ 0, so
the classifier never receives a negative distance in the pipeline. -/
theorem engine_distance_nonneg {β : Type} (dist : Facility → β → ℚ)
    (facs : List Facility) (water : List β) (hw : water ≠ [])
    (hd : ∀ fa w, 0 ≤ dist fa w) :
    ∀ r ∈ calculate_distance_and_categorize_risk dist facs water,
      ∃ q, r.Distance_to_Water_m = some q ∧ 0 ≤ q := by
  intro r hr
  unfold calculate_distance_and_categorize_risk at hr
  obtain ⟨f, _, rfl⟩ := List.mem_map.mp hr
  cases water with
  | nil => exact absurd rfl hw
  | cons c cs =>
    refine ⟨_, rfl, ?_⟩
    exact foldl_min_nonneg _ _ (hd f c)
      (fun x hx => by
        obtain ⟨wfeat, _, rfl⟩ := List.mem_map.mp hx
        exact hd f wfeat)

/-- Witness for engine_distance_nonneg on a concrete one-facility run. -/
theorem engine_distance_nonneg_witness :
    (([()] : List Unit) ≠ []) ∧ (∀ fa w, 0 ≤ dist0 fa w) ∧
    ∀ r ∈ calculate_distance_and_categorize_risk dist0 [fac0] [()],
      ∃ q, r.Distance_to_Water_m = some q ∧ 0 ≤ q :=
  ⟨by simp, fun fa w => by norm_num [dist0],
   engine_distance_nonneg dist0 [fac0] [()] (by simp)
     (fun fa w => by norm_num [dist0])⟩

/-- Folding the running minimum against exact distances that are all at
least the current best leaves the best unchanged. -/
theorem foldl_min_exact_const {β : Type} (exactDist : β → ℚ) (cs : List β)
    (best : ℚ) (h : ∀ c ∈ cs, best ≤ exactDist c) :
    cs.foldl (fun d c => min d (exactDist c)) best = best := by
  induction cs generalizing best with
  | nil => rfl
  | cons c cs ih =>
    rw [List.foldl_cons, min_eq_left (h c (by simp))]
    exact ih best (fun x hx => h x (by simp [hx]))

/-- The branch-and-bound scan computes the same running minimum as the full
fold, provided candidates come in increasing lower-bound order and each
lower bound under-approximates its exact distance: pruning only discards
candidates whose exact distance cannot beat the current best. -/
theorem bnb_scan_eq_foldl {β : Type} (exactDist lbDist : β → ℚ)
    (cs : List β) (best : ℚ)
    (hsorted : cs.Pairwise (fun a b => lbDist a ≤ lbDist b))
    (hlb : ∀ c ∈ cs, lbDist c ≤ exactDist c) :
    bnb_scan exactDist lbDist best cs =
      cs.foldl (fun d c => min d (exactDist c)) best := by
  induction cs generalizing best with
  | nil => rfl
  | cons c cs ih =>
    rw [bnb_scan, List.foldl_cons]
    by_cases hb : best < lbDist c
    · rw [if_pos hb, min_eq_left
        (le_of_lt (lt_of_lt_of_le hb (hlb c (by simp))))]
      refine (foldl_min_exact_const exactDist cs best (fun x hx => ?_)).symm
      have hcx : lbDist c ≤ lbDist x := (List.pairwise_cons.mp hsorted).1 x hx
      exact le_of_lt (lt_of_lt_of_le hb (le_trans hcx (hlb x (by simp [hx]))))
    · rw [if_neg hb]
      exact ih (min best (exactDist c)) (List.pairwise_cons.mp hsorted).2
        (fun x hx => hlb x (by simp [hx]))

/-- Claim C1: the indexed Proximity Engine (modelled from the spec,
sections 4.2-4.3, since src holds only the brute-force scan) reports, for
every facility point, exactly the brute-force minimum over all features of
the exact point-to-geometry distance, whenever the index delivers the
candidates in increasing lower-bound order and every lower bound
under-approximates the exact distance. Distances are exact rationals here,
so the agreement is exact (tolerance 0). -/
theorem indexed_eq_brute_force {β : Type} (exactDist lbDist : β → ℚ)
    (water : List β)
    (hsorted : water.Pairwise (fun a b => lbDist a ≤ lbDist b))
    (hlb : ∀ c ∈ water, lbDist c ≤ exactDist c) :
    indexed_minimum_distance exactDist lbDist water =
      series_min (water.map exactDist) := by
  cases water with
  | nil => rfl
  | cons c cs =>
    show some (bnb_scan exactDist lbDist (exactDist c) cs) =
      some (List.foldl min (exactDist c) (List.map exactDist cs))
    rw [bnb_scan_eq_foldl exactDist lbDist cs (exactDist c)
      (List.pairwise_cons.mp hsorted).2 (fun x hx => hlb x (by simp [hx]))]
    rw [List.foldl_map]

/-- Witness for indexed_eq_brute_force on a concrete sorted candidate
list. -/
theorem indexed_eq_brute_force_witness :
    (([2, 3, 5] : List ℚ).Pairwise
      (fun a b => (fun q => q - 1) a ≤ (fun q => q - 1) b)) ∧
    (∀ c ∈ ([2, 3, 5] : List ℚ), (fun q => q - 1) c ≤ (fun q : ℚ => q) c) ∧
    indexed_minimum_distance (fun q : ℚ => q) (fun q => q - 1) [2, 3, 5] =
      series_min (([2, 3, 5] : List ℚ).map (fun q : ℚ => q)) :=
  ⟨by norm_num [List.pairwise_cons], by norm_num,
   indexed_eq_brute_force (fun q : ℚ => q) (fun q => q - 1) [2, 3, 5]
     (by norm_num [List.pairwise_cons]) (by norm_num)⟩
